import Mathlib

/-!
Verification of the webrtc-audio-processing-python specification.

The repository's Python sources are a binding declaration (`__init__.py`) and
example scripts; the audio-processing engine itself (AudioProcessing sessions,
VAD, Resampler, RmsLevel, VoiceActivityDetector) is native code that is not
part of the Python sources. Those components are therefore modelled here from
the specification's own words (spec.md sections 3, 4.1, 4.5, 4.6, 4.7), and
each such definition carries a doc comment starting "Modelled from the spec:".
Frames are lists of integer samples (signed 16-bit PCM in the real system).
-/

namespace WebRTCAPM

/-- Modelled from the spec: result/error codes surfaced to callers — NO_ERROR,
and distinct kinds for configuration errors (invalid rate/channel/mode
combination, rejected at construction), frame-contract errors (wrong frame
length, rejected per-call), and internal processing failure. -/
inductive Error where
  | noError
  | configurationError
  | frameContractError
  | processingError
deriving DecidableEq, Repr

/-- Modelled from the spec: StreamConfig is the pair {sample_rate_hz,
num_channels}. -/
structure StreamConfig where
  sample_rate_hz : Nat
  num_channels : Nat
deriving DecidableEq, Repr

/-- Modelled from the spec: frames cover exactly one 10 ms tick, so
samples_per_channel = sample_rate_hz / 100. -/
def samplesPerChannel (c : StreamConfig) : Nat := c.sample_rate_hz / 100

/-- Modelled from the spec: the frame contract length is
samples_per_channel(config) * channels. -/
def frameContractLength (c : StreamConfig) : Nat :=
  samplesPerChannel c * c.num_channels

/-- Sum of squared samples of a frame; the basic energy statistic used by the
VAD and RMS models. -/
def frameSumSq (frame : List Int) : Nat :=
  (frame.map fun x => (x * x).toNat).sum

namespace VAD

/-- Modelled from the spec: is_valid_config(sample_rate, frame_length) is a
pure validation predicate — valid rates are {8000, 16000, 32000}, valid frame
durations are {10, 20, 30} ms, and frame_length must equal
sample_rate * duration_ms / 1000 exactly for some valid duration. -/
def is_valid_config (sample_rate frame_length : Nat) : Bool :=
  (sample_rate == 8000 || sample_rate == 16000 || sample_rate == 32000) &&
  (frame_length == sample_rate * 10 / 1000 ||
   frame_length == sample_rate * 20 / 1000 ||
   frame_length == sample_rate * 30 / 1000)

end VAD

/-- Modelled from the spec: a VAD instance owns its mode (aggressiveness 0-3)
and is stateless across frames except for the mode setting itself. -/
structure VAD where
  mode : Nat
deriving DecidableEq, Repr

namespace VAD

/-- Modelled from the spec: a freshly constructed VAD with the default mode. -/
def create : VAD := ⟨0⟩

/-- Modelled from the spec: the mode trades false-positive rate for
sensitivity — a higher mode is more aggressive at rejecting non-speech, so
the energy threshold grows with the mode. The threshold is strictly positive
even at frame length zero so that silence is never classified as speech. -/
def threshold (mode frame_length : Nat) : Nat :=
  (mode + 1) * (frame_length + 1)

/-- Modelled from the spec: is_speech(frame, sample_rate) classifies one frame
by its energy, returning a boolean-as-integer (1 speech, 0 non-speech) or the
error sentinel -1 for an invalid configuration. Each call is a deterministic
pure function of (mode, frame, sample_rate). -/
def is_speech (v : VAD) (frame : List Int) (sample_rate : Nat) : Int :=
  if is_valid_config sample_rate frame.length then
    if threshold v.mode frame.length < frameSumSq frame then 1 else 0
  else
    -1

/-- Modelled from the spec: set_mode accepts an aggressiveness in {0,1,2,3},
returning success and the updated instance; out-of-range modes are rejected
and leave the instance unchanged. -/
def set_mode (v : VAD) (m : Nat) : Bool × VAD :=
  if m ≤ 3 then (true, { v with mode := m }) else (false, v)

/-- A single is_speech call viewed as a state transition: the spec says the
instance is stateless across frames, so the state after the call is the state
before it. -/
def is_speech_call (v : VAD) (frame : List Int) (sample_rate : Nat) :
    Int × VAD :=
  (is_speech v frame sample_rate, v)

/-- State of a VAD after a sequence of is_speech calls (each given as a
frame / sample-rate pair), with no intervening set_mode. -/
def processMany (v : VAD) (calls : List (List Int × Nat)) : VAD :=
  calls.foldl (fun st c => (is_speech_call st c.1 c.2).2) v

end VAD

/-- Modelled from the spec: the Config tree of per-module enable flags and
parameters (EchoCanceller, NoiseSuppression, GainController1/2,
HighPassFilter). -/
structure Config where
  echo_canceller_enabled : Bool := false
  echo_canceller_mobile_mode : Bool := false
  noise_suppression_enabled : Bool := false
  noise_suppression_level : Nat := 1
  gain_controller1_enabled : Bool := false
  gain_controller1_mode : Nat := 0
  gain_controller2_enabled : Bool := false
  high_pass_filter_enabled : Bool := false
deriving DecidableEq, Repr

/-- Modelled from the spec: a ProcessingSession ("AudioProcessing" instance)
owns all per-module adaptive state — the echo canceller's reference buffer and
filter estimate, the noise estimate, the gain-controller state and the
high-pass filter memory. -/
structure Session where
  rate : Nat
  channels : Nat
  config : Config
  refFrame : List Int
  hpfMemory : Int
  noiseEstimate : Int
  agc1Gain : Int
  agc2Gain : Int
deriving DecidableEq, Repr

/-- Modelled from the spec: the rates supported for full processing are
{8000, 16000, 32000, 48000}. -/
def validFullRate (r : Nat) : Bool :=
  r == 8000 || r == 16000 || r == 32000 || r == 48000

/-- Modelled from the spec: session creation via the builder accepts a Config
tree and a (rate, channels) pair and returns a session handle or a
ConfigurationError; the invariant is sample_rate_hz in
{8000, 16000, 32000, 48000} and num_channels >= 1, and a failed construction
leaves no partially-constructed session behind (the error carries none). -/
def createSession (rate channels : Nat) (cfg : Config) : Except Error Session :=
  if validFullRate rate && decide (1 ≤ channels) then
    .ok { rate := rate, channels := channels, config := cfg,
          refFrame := [], hpfMemory := 0, noiseEstimate := 0,
          agc1Gain := 256, agc2Gain := 256 }
  else
    .error .configurationError

/-- Modelled from the spec: the high-pass filter removes DC content with a
slowly tracking per-channel filter memory persisted across frames. -/
def hpfStep (mem : Int) (x : Int) : Int × Int :=
  let mem2 := (15 * mem + x) / 16
  (x - mem2, mem2)

/-- High-pass filter over one frame, threading the filter memory. -/
def hpfRun (mem : Int) (frame : List Int) : List Int × Int :=
  match frame with
  | [] => ([], mem)
  | x :: xs =>
      let (y, mem2) := hpfStep mem x
      let (ys, mem3) := hpfRun mem2 xs
      (y :: ys, mem3)

/-- Modelled from the spec: the echo canceller subtracts an estimate of the
echo derived from the buffered far-end reference; a missing reference sample
is treated as silence. The adaptive estimate here is a single attenuation
applied to the reference. -/
def aecRun (refFrame frame : List Int) : List Int :=
  (List.range frame.length).map fun i =>
    frame.getD i 0 - refFrame.getD i 0 / 4

/-- Modelled from the spec: the noise suppressor shapes each sample toward
zero by a level-dependent gain; higher levels suppress more. -/
def nsRun (level : Nat) (frame : List Int) : List Int :=
  frame.map fun x => x * (8 - min 4 (level : Int)) / 8

/-- Modelled from the spec: the gain controllers apply a digital gain (in
units of 1/256) and adapt it toward a target level after every frame. -/
def agcRun (gain : Int) (frame : List Int) : List Int × Int :=
  (frame.map fun x => x * gain / 256,
   if frameSumSq frame = 0 then gain else (gain * 255 + 256) / 256)

/-- Modelled from the spec: the forward capture chain, high-pass filter →
echo cancellation (using the buffered reference) → noise suppression → AGC1
→ AGC2, each stage guarded by its enable flag, mutating the enabled modules'
adaptive state. -/
def forwardChain (s : Session) (frame : List Int) : List Int × Session :=
  let (y1, mem2) :=
    if s.config.high_pass_filter_enabled then hpfRun s.hpfMemory frame
    else (frame, s.hpfMemory)
  let y2 :=
    if s.config.echo_canceller_enabled then aecRun s.refFrame y1 else y1
  let y3 :=
    if s.config.noise_suppression_enabled then
      nsRun s.config.noise_suppression_level y2
    else y2
  let (y4, g1) :=
    if s.config.gain_controller1_enabled then agcRun s.agc1Gain y3
    else (y3, s.agc1Gain)
  let (y5, g2) :=
    if s.config.gain_controller2_enabled then agcRun s.agc2Gain y4
    else (y4, s.agc2Gain)
  (y5, { s with hpfMemory := mem2, agc1Gain := g1, agc2Gain := g2 })

/-- Modelled from the spec: ProcessStream(frame, config, out_frame) runs the
full forward chain and writes the processed result into the output frame;
it requires frame.length = samples_per_channel(config) * channels, and a
violation fails with the frame-contract error, performs no partial mutation
of the output frame and leaves all adaptive state unchanged. The result is
(error code, output frame contents, session after the call). -/
def ProcessStream (s : Session) (frame : List Int) (cfg : StreamConfig)
    (out : List Int) : Error × List Int × Session :=
  if frame.length = frameContractLength cfg then
    let (y, s2) := forwardChain s frame
    (.noError, y, s2)
  else
    (.frameContractError, out, s)

/-- Modelled from the spec: ProcessReverseStream buffers the far-end
reference for the echo canceller and passes the render frame through; the
same frame contract applies, and a violation performs no mutation at all. -/
def ProcessReverseStream (s : Session) (frame : List Int) (cfg : StreamConfig)
    (out : List Int) : Error × List Int × Session :=
  if frame.length = frameContractLength cfg then
    (.noError, frame, { s with refFrame := frame })
  else
    (.frameContractError, out, s)

/-- The demonstration session used by witnesses: 32 kHz mono with the default
module configuration. -/
def demoSession : Session :=
  { rate := 32000, channels := 1, config := {}, refFrame := [],
    hpfMemory := 0, noiseEstimate := 0, agc1Gain := 256, agc2Gain := 256 }

/-- Modelled from the spec: Resampler state owns the fixed (input_rate,
output_rate, channels) triple it was constructed for and the fractional
carry (in units of 1/input_rate of an output sample) preserved between
process calls. -/
structure Resampler where
  input_rate : Nat
  output_rate : Nat
  channels : Nat
  carry : Nat
deriving DecidableEq, Repr

namespace Resampler

/-- Modelled from the spec: a resampler is constructed for a fixed
(input_rate, output_rate, channel_count) triple, starting with no carry. -/
def create (input_rate output_rate channels : Nat) : Resampler :=
  ⟨input_rate, output_rate, channels, 0⟩

/-- Modelled from the spec: process consumes a variable-length input block
and produces an output block whose length is determined by the rate
ratio, the fractional carry being preserved in the state; the polyphase FIR
kernel of the native code is abstracted as a nearest-index sample map, since
the claims concern lengths and state. -/
def process (r : Resampler) (block : List Int) : List Int × Resampler :=
  ((List.range ((r.carry + block.length * r.output_rate) / r.input_rate)).map
      (fun j => block.getD (j * r.input_rate / r.output_rate) 0),
   { r with carry := (r.carry + block.length * r.output_rate) % r.input_rate })

/-- A sequence of process calls on variable-length blocks, concatenating the
produced output blocks. -/
def processAll : Resampler → List (List Int) → List Int × Resampler
  | r, [] => ([], r)
  | r, b :: bs =>
      ((r.process b).1 ++ (processAll (r.process b).2 bs).1,
       (processAll (r.process b).2 bs).2)

end Resampler

/-- Cumulative input length of a sequence of blocks. -/
def totalInput (blocks : List (List Int)) : Nat :=
  (blocks.map List.length).sum

/-- Modelled from the spec: the RMS level meter's accumulator — sum of
squared samples and sample count since the last reset, plus the largest
per-frame mean-square level observed since the last reset. -/
structure RmsLevel where
  sum_sq : Nat
  sample_count : Nat
  peak_level : Nat
deriving DecidableEq, Repr

namespace RmsLevel

/-- A freshly constructed (or freshly reset) meter. -/
def create : RmsLevel := ⟨0, 0, 0⟩

/-- Modelled from the spec: Analyze(frame) accumulates statistics. -/
def Analyze (st : RmsLevel) (frame : List Int) : RmsLevel :=
  { sum_sq := st.sum_sq + frameSumSq frame,
    sample_count := st.sample_count + frame.length,
    peak_level := max st.peak_level
      (if frame.length = 0 then 0 else frameSumSq frame / frame.length) }

/-- Modelled from the spec: AverageAndPeak() returns the running average and
peak RMS (here as mean-square levels) accumulated since the last reset, then
resets the accumulator (reset-on-read, the spec's recommended choice). -/
def AverageAndPeak (st : RmsLevel) : (Nat × Nat) × RmsLevel :=
  ((if st.sample_count = 0 then 0 else st.sum_sq / st.sample_count,
    st.peak_level),
   create)

/-- A sequence of Analyze calls. -/
def analyzeAll : RmsLevel → List (List Int) → RmsLevel
  | st, [] => st
  | st, f :: fs => analyzeAll (st.Analyze f) fs

end RmsLevel

/-- Per-chunk mean-square level used by the VoiceActivityDetector model. -/
def chunkRmsValue (chunk : List Int) : Nat :=
  frameSumSq chunk / (chunk.length + 1)

/-- Modelled from the spec: the continuous per-chunk voice probability,
derived from the chunk's energy and capped at the probability scale. -/
def chunkProbValue (chunk : List Int) : Nat :=
  min 1024 (chunkRmsValue chunk)

/-- Modelled from the spec: the richer VoiceActivityDetector variant keeps
rolling per-chunk probability and RMS histories across calls, plus the last
computed probability. -/
structure VoiceActivityDetector where
  probHistory : List Nat
  rmsHistory : List Nat
  lastProb : Nat
deriving DecidableEq, Repr

namespace VoiceActivityDetector

/-- A freshly constructed detector with empty histories. -/
def create : VoiceActivityDetector := ⟨[], [], 0⟩

/-- Modelled from the spec: process_chunk analyzes one chunk and appends its
probability and RMS to the rolling histories. -/
def process_chunk (v : VoiceActivityDetector) (chunk : List Int)
    (_sample_rate : Nat) : VoiceActivityDetector :=
  { probHistory := v.probHistory ++ [chunkProbValue chunk],
    rmsHistory := v.rmsHistory ++ [chunkRmsValue chunk],
    lastProb := chunkProbValue chunk }

/-- Modelled from the spec: the per-chunk probability history is consumed as
a finite, ordered sequence cleared after each read. -/
def chunkwise_voice_probabilities (v : VoiceActivityDetector) :
    List Nat × VoiceActivityDetector :=
  (v.probHistory, { v with probHistory := [] })

/-- Modelled from the spec: the per-chunk RMS history is consumed as a
finite, ordered sequence cleared after each read. -/
def chunkwise_rms (v : VoiceActivityDetector) :
    List Nat × VoiceActivityDetector :=
  (v.rmsHistory, { v with rmsHistory := [] })

/-- A sequence of process_chunk calls at a fixed sample rate. -/
def processChunks (sample_rate : Nat) :
    VoiceActivityDetector → List (List Int) → VoiceActivityDetector
  | v, [] => v
  | v, c :: cs => processChunks sample_rate (v.process_chunk c sample_rate) cs

end VoiceActivityDetector

end WebRTCAPM

namespace WebRTCAPM

/-- The spec's wording of configuration validity for the VAD, stated as a
proposition, to be compared with the executable is_valid_config. -/
def SpecValidVADConfig (sample_rate frame_length : Nat) : Prop :=
  (sample_rate = 8000 ∨ sample_rate = 16000 ∨ sample_rate = 32000) ∧
  ∃ d, (d = 10 ∨ d = 20 ∨ d = 30) ∧ frame_length = sample_rate * d / 1000

/-- C3: is_valid_config is pure (a function of its two arguments, which it is
by construction) and returns true exactly when the rate is in
{8000, 16000, 32000} and the frame length is sample_rate * d / 1000 for some
duration d in {10, 20, 30}; moreover is_valid_config 16000 480 and
is_valid_config 8000 240 are true while is_valid_config 16000 100 is false. -/
theorem VAD.is_valid_config_spec :
    (∀ sample_rate frame_length : Nat,
       VAD.is_valid_config sample_rate frame_length = true ↔
         SpecValidVADConfig sample_rate frame_length) ∧
    VAD.is_valid_config 16000 480 = true ∧
    VAD.is_valid_config 8000 240 = true ∧
    VAD.is_valid_config 16000 100 = false := by
  refine ⟨?_, by decide, by decide, by decide⟩
  intro sample_rate frame_length
  constructor
  · intro h
    simp only [is_valid_config, Bool.and_eq_true, Bool.or_eq_true, beq_iff_eq] at h
    obtain ⟨hr, hl⟩ := h
    refine ⟨by tauto, ?_⟩
    rcases hl with (h10 | h20) | h30
    · exact ⟨10, Or.inl rfl, h10⟩
    · exact ⟨20, Or.inr (Or.inl rfl), h20⟩
    · exact ⟨30, Or.inr (Or.inr rfl), h30⟩
  · rintro ⟨hr, d, hd, hl⟩
    simp only [is_valid_config, Bool.and_eq_true, Bool.or_eq_true, beq_iff_eq]
    refine ⟨by tauto, ?_⟩
    rcases hd with rfl | rfl | rfl
    · exact Or.inl (Or.inl hl)
    · exact Or.inl (Or.inr hl)
    · exact Or.inr hl

/-- C4: for every frame and sample rate, is_speech returns a value in
{-1, 0, 1}; it returns the sentinel -1 exactly for an invalid configuration,
so on any valid configuration the result is in {0, 1}. -/
theorem VAD.is_speech_range :
    ∀ (v : VAD) (frame : List Int) (sample_rate : Nat),
      (v.is_speech frame sample_rate = -1 ∨
       v.is_speech frame sample_rate = 0 ∨
       v.is_speech frame sample_rate = 1) ∧
      (v.is_speech frame sample_rate = -1 ↔
        VAD.is_valid_config sample_rate frame.length = false) := by
  intro v frame sample_rate
  unfold is_speech
  by_cases h : is_valid_config sample_rate frame.length = true
  · simp only [h, if_true]
    by_cases he : threshold v.mode frame.length < frameSumSq frame
    · simp [he]
    · simp [he]
  · simp only [Bool.not_eq_true] at h
    simp [h]

/-- C5: for every mode in {0,1,2,3}, every supported rate and every valid
frame length, is_speech on an all-zero frame returns the non-speech
classification 0. -/
theorem VAD.silence_is_nonspeech (m sample_rate frame_length : Nat)
    (hm : m ≤ 3)
    (hcfg : VAD.is_valid_config sample_rate frame_length = true) :
    (VAD.mk m).is_speech (List.replicate frame_length 0) sample_rate = 0 := by
  unfold is_speech
  have hlen : (List.replicate frame_length (0 : Int)).length = frame_length :=
    List.length_replicate _ _
  rw [hlen, hcfg]
  simp only [if_true]
  have he : frameSumSq (List.replicate frame_length 0) = 0 := by
    unfold frameSumSq
    induction frame_length with
    | zero => rfl
    | succ n ih => simpa [List.replicate_succ] using ih
  rw [he]
  simp [threshold]

/-- C5 witness: mode 2 at 16 kHz with a 480-sample (30 ms) zero frame. -/
theorem VAD.silence_is_nonspeech_witness :
    (2 : Nat) ≤ 3 ∧ VAD.is_valid_config 16000 480 = true ∧
    (VAD.mk 2).is_speech (List.replicate 480 0) 16000 = 0 :=
  ⟨by decide, by decide,
    VAD.silence_is_nonspeech 2 16000 480 (by decide) (by decide)⟩

/-- C8: a VAD instance is stateless across frames except for its mode: any
sequence of intervening is_speech calls leaves the state unchanged, so two
calls with identical (frame, sample_rate) arguments return identical
results no matter what was processed in between. -/
theorem VAD.is_speech_deterministic :
    ∀ (v : VAD) (calls : List (List Int × Nat)) (frame : List Int)
      (sample_rate : Nat),
      VAD.processMany v calls = v ∧
      (VAD.processMany v calls).is_speech frame sample_rate =
        v.is_speech frame sample_rate := by
  intro v calls frame sample_rate
  have hst : VAD.processMany v calls = v := by
    induction calls generalizing v with
    | nil => rfl
    | cons c cs ih => simpa [processMany, is_speech_call] using ih v
  exact ⟨hst, by rw [hst]⟩

/-- C10: set_mode succeeds (returns true) for every mode in {0,1,2,3}, and
the instance stays usable afterwards: is_speech on any frame of a valid
configuration returns 0 or 1, never the error sentinel. -/
theorem VAD.set_mode_ok (v : VAD) (m : Nat) (frame : List Int)
    (sample_rate : Nat) (hm : m ≤ 3)
    (hcfg : VAD.is_valid_config sample_rate frame.length = true) :
    (v.set_mode m).1 = true ∧
    ((v.set_mode m).2.is_speech frame sample_rate = 0 ∨
     (v.set_mode m).2.is_speech frame sample_rate = 1) := by
  unfold set_mode
  rw [if_pos hm]
  refine ⟨rfl, ?_⟩
  unfold is_speech
  rw [hcfg]
  simp only [if_true]
  by_cases he : threshold m frame.length < frameSumSq frame
  · simp [he]
  · simp [he]

/-- C2: session construction succeeds exactly for sample rates in
{8000, 16000, 32000, 48000} with at least one channel; every other
combination (for example 24000 Hz) fails with ConfigurationError, and the
failure carries no partially-constructed session. -/
theorem createSession_spec (rate channels : Nat) (cfg : Config) :
    ((∃ s, createSession rate channels cfg = Except.ok s) ↔
      ((rate = 8000 ∨ rate = 16000 ∨ rate = 32000 ∨ rate = 48000) ∧
        1 ≤ channels)) ∧
    (∀ e, createSession rate channels cfg = Except.error e →
      e = Error.configurationError) ∧
    createSession 24000 channels cfg = Except.error Error.configurationError := by
  have hv : ∀ r, validFullRate r = true ↔
      (r = 8000 ∨ r = 16000 ∨ r = 32000 ∨ r = 48000) := by
    intro r
    simp only [validFullRate, Bool.or_eq_true, beq_iff_eq]
    tauto
  have h24 : createSession 24000 channels cfg =
      Except.error Error.configurationError := by
    simp [createSession, validFullRate]
  refine ⟨?_, ?_, h24⟩
  · by_cases hc : (validFullRate rate && decide (1 ≤ channels)) = true
    · have hok : createSession rate channels cfg = Except.ok
          { rate := rate, channels := channels, config := cfg,
            refFrame := [], hpfMemory := 0, noiseEstimate := 0,
            agc1Gain := 256, agc2Gain := 256 } := by
        unfold createSession
        rw [if_pos hc]
      rw [Bool.and_eq_true, decide_eq_true_eq] at hc
      constructor
      · intro _
        exact ⟨(hv rate).mp hc.1, hc.2⟩
      · intro _
        exact ⟨_, hok⟩
    · have herr : createSession rate channels cfg =
          Except.error Error.configurationError := by
        unfold createSession
        rw [if_neg hc]
      constructor
      · rintro ⟨s, hs⟩
        rw [herr] at hs
        cases hs
      · intro hvc
        exfalso
        apply hc
        rw [Bool.and_eq_true, decide_eq_true_eq]
        exact ⟨(hv rate).mpr hvc.1, hvc.2⟩
  · intro e he
    by_cases hc : (validFullRate rate && decide (1 ≤ channels)) = true
    · unfold createSession at he
      rw [if_pos hc] at he
      cases he
    · unfold createSession at he
      rw [if_neg hc] at he
      injection he with h
      exact h.symm

/-- C2 witness: construction at 48 kHz stereo succeeds, and at 24 kHz it
fails with ConfigurationError. -/
theorem createSession_spec_witness :
    ((48000 = 8000 ∨ 48000 = 16000 ∨ 48000 = 32000 ∨ 48000 = 48000) ∧
      (1 : Nat) ≤ 2) ∧
    (∃ s, createSession 48000 2 {} = Except.ok s) ∧
    createSession 24000 2 {} = Except.error Error.configurationError := by
  have h := createSession_spec 48000 2 {}
  exact ⟨by decide, h.1.mpr ⟨by decide, by decide⟩, h.2.2⟩

/-- C1: a ProcessStream or ProcessReverseStream call whose frame length
differs from samples_per_channel(config) * channels returns the
frame-contract error (which is distinct from NO_ERROR), leaves the output
frame untouched and leaves the session's adaptive state unchanged, so every
subsequent call produces exactly what it would have produced had the failed
call never occurred. -/
theorem ProcessStream_frame_contract (s : Session) (frame out : List Int)
    (cfg : StreamConfig) (h : frame.length ≠ frameContractLength cfg) :
    ProcessStream s frame cfg out = (Error.frameContractError, out, s) ∧
    ProcessReverseStream s frame cfg out = (Error.frameContractError, out, s) ∧
    Error.frameContractError ≠ Error.noError ∧
    (∀ g cfg2 out2,
       ProcessStream (ProcessStream s frame cfg out).2.2 g cfg2 out2 =
         ProcessStream s g cfg2 out2) ∧
    (∀ g cfg2 out2,
       ProcessReverseStream (ProcessReverseStream s frame cfg out).2.2 g cfg2
           out2 =
         ProcessReverseStream s g cfg2 out2) := by
  have h1 : ProcessStream s frame cfg out =
      (Error.frameContractError, out, s) := by
    unfold ProcessStream
    rw [if_neg h]
  have h2 : ProcessReverseStream s frame cfg out =
      (Error.frameContractError, out, s) := by
    unfold ProcessReverseStream
    rw [if_neg h]
  refine ⟨h1, h2, by decide, ?_, ?_⟩
  · intro g cfg2 out2
    rw [h1]
  · intro g cfg2 out2
    rw [h2]

/-- C1 witness: a 3-sample frame against the 320-sample contract of 32 kHz
mono is rejected with no mutation. -/
theorem ProcessStream_frame_contract_witness :
    ([1, 2, 3] : List Int).length ≠ frameContractLength ⟨32000, 1⟩ ∧
    ProcessStream demoSession [1, 2, 3] ⟨32000, 1⟩ [7] =
      (Error.frameContractError, [7], demoSession) ∧
    ProcessReverseStream demoSession [1, 2, 3] ⟨32000, 1⟩ [7] =
      (Error.frameContractError, [7], demoSession) := by
  have h := ProcessStream_frame_contract demoSession [1, 2, 3] [7]
    ⟨32000, 1⟩ (by decide)
  exact ⟨by decide, h.1, h.2.1⟩

/-- One process call advances the cumulative-length invariant: the produced
output length times the input rate plus the new carry equals the old carry
plus the consumed input length times the output rate, the new carry stays
below the input rate, and the constructed-for triple is untouched. -/
theorem Resampler.process_spec (r : Resampler) (b : List Int)
    (h : 0 < r.input_rate) :
    (r.process b).1.length * r.input_rate + (r.process b).2.carry =
      r.carry + b.length * r.output_rate ∧
    (r.process b).2.carry < r.input_rate ∧
    (r.process b).2.input_rate = r.input_rate ∧
    (r.process b).2.output_rate = r.output_rate ∧
    (r.process b).2.channels = r.channels := by
  refine ⟨?_, Nat.mod_lt _ h, rfl, rfl, rfl⟩
  have h1 : (r.process b).1.length =
      (r.carry + b.length * r.output_rate) / r.input_rate := by
    simp [process]
  have h2 : (r.process b).2.carry =
      (r.carry + b.length * r.output_rate) % r.input_rate := rfl
  rw [h1, h2]
  exact Nat.div_add_mod' _ _

/-- The cumulative-length invariant holds across any sequence of process
calls. -/
theorem Resampler.processAll_invariant (blocks : List (List Int))
    (r : Resampler) (h : 0 < r.input_rate) (hc : r.carry < r.input_rate) :
    (r.processAll blocks).1.length * r.input_rate +
        (r.processAll blocks).2.carry =
      r.carry + totalInput blocks * r.output_rate ∧
    (r.processAll blocks).2.carry < r.input_rate ∧
    (r.processAll blocks).2.input_rate = r.input_rate ∧
    (r.processAll blocks).2.output_rate = r.output_rate ∧
    (r.processAll blocks).2.channels = r.channels := by
  induction blocks generalizing r with
  | nil =>
      refine ⟨?_, hc, rfl, rfl, rfl⟩
      simp [processAll, totalInput]
  | cons b bs ih =>
      obtain ⟨hp1, hp2, hpi, hpo, hpc⟩ := Resampler.process_spec r b h
      have hih := ih (r.process b).2 (by rw [hpi]; exact h) (by rw [hpi]; exact hp2)
      rw [hpi, hpo, hpc] at hih
      obtain ⟨hi1, hi2, hi3, hi4, hi5⟩ := hih
      have hgoal :
          ((r.process b).1 ++ ((r.process b).2.processAll bs).1).length *
              r.input_rate + ((r.process b).2.processAll bs).2.carry =
            r.carry + (b.length + totalInput bs) * r.output_rate := by
        rw [List.length_append]
        calc ((r.process b).1.length + ((r.process b).2.processAll bs).1.length) *
                r.input_rate + ((r.process b).2.processAll bs).2.carry
            = (r.process b).1.length * r.input_rate +
                (((r.process b).2.processAll bs).1.length * r.input_rate +
                  ((r.process b).2.processAll bs).2.carry) := by
              rw [Nat.add_mul, Nat.add_assoc]
          _ = (r.process b).1.length * r.input_rate +
                ((r.process b).2.carry + totalInput bs * r.output_rate) := by
              rw [hi1]
          _ = ((r.process b).1.length * r.input_rate + (r.process b).2.carry) +
                totalInput bs * r.output_rate := by
              rw [Nat.add_assoc]
          _ = (r.carry + b.length * r.output_rate) + totalInput bs * r.output_rate := by
              rw [hp1]
          _ = r.carry + (b.length + totalInput bs) * r.output_rate := by
              rw [Nat.add_mul, Nat.add_assoc]
      refine ⟨?_, ?_, ?_, ?_, ?_⟩
      · show ((r.process b).1 ++ ((r.process b).2.processAll bs).1).length *
            r.input_rate + ((r.process b).2.processAll bs).2.carry =
          r.carry + totalInput (b :: bs) * r.output_rate
        have ht : totalInput (b :: bs) = b.length + totalInput bs := by
          simp [totalInput]
        rw [ht]
        exact hgoal
      · exact hi2
      · exact hi3
      · exact hi4
      · exact hi5

/-- C6: over any sequence of variable-length process calls on a resampler
built for a fixed (input_rate, output_rate, channels) triple, the cumulative
output length equals the floor of cumulative input length times the exact
rate ratio — so there is no unbounded drift — the fractional carry held in
the state is exactly the running remainder (preserved between calls, never
reset implicitly), and the constructed-for triple is never changed by
processing. -/
theorem Resampler.no_drift (input_rate output_rate channels : Nat)
    (blocks : List (List Int)) (h : 0 < input_rate) :
    ((Resampler.create input_rate output_rate channels).processAll
        blocks).1.length =
      totalInput blocks * output_rate / input_rate ∧
    ((Resampler.create input_rate output_rate channels).processAll
        blocks).2.carry =
      totalInput blocks * output_rate % input_rate ∧
    ((Resampler.create input_rate output_rate channels).processAll
        blocks).2.input_rate = input_rate ∧
    ((Resampler.create input_rate output_rate channels).processAll
        blocks).2.output_rate = output_rate ∧
    ((Resampler.create input_rate output_rate channels).processAll
        blocks).2.channels = channels := by
  obtain ⟨h1, h2, h3, h4, h5⟩ :=
    Resampler.processAll_invariant blocks
      (Resampler.create input_rate output_rate channels) h h
  simp only [create] at h1 h2 h3 h4 h5
  rw [Nat.zero_add] at h1
  rw [Nat.add_comm] at h1
  refine ⟨?_, ?_, h3, h4, h5⟩
  · rw [← h1, Nat.add_mul_div_right _ _ h, Nat.div_eq_of_lt h2, Nat.zero_add]
    rfl
  · rw [← h1, Nat.add_mul_mod_self_right, Nat.mod_eq_of_lt h2]
    rfl

/-- C6 witness: 48 kHz to 16 kHz mono over two blocks of lengths 3 and 2. -/
theorem Resampler.no_drift_witness :
    0 < 48000 ∧
    ((Resampler.create 48000 16000 1).processAll [[1, 2, 3], [4, 5]]).1.length =
      totalInput [[1, 2, 3], [4, 5]] * 16000 / 48000 ∧
    ((Resampler.create 48000 16000 1).processAll [[1, 2, 3], [4, 5]]).2.carry =
      totalInput [[1, 2, 3], [4, 5]] * 16000 % 48000 := by
  have h := Resampler.no_drift 48000 16000 1 [[1, 2, 3], [4, 5]] (by decide)
  exact ⟨by decide, h.1, h.2.1⟩

/-- C7: AverageAndPeak is reset-on-read — reading resets the accumulator to
the fresh state, an immediately repeated read reports empty statistics, and
the value returned by a later read depends only on the frames analyzed after
the previous read (the history before that read is invisible). -/
theorem RmsLevel.reset_on_read :
    ∀ (st : RmsLevel) (frames : List (List Int)),
      (st.AverageAndPeak).2 = RmsLevel.create ∧
      ((st.AverageAndPeak).2.AverageAndPeak).1 = (0, 0) ∧
      (RmsLevel.analyzeAll (st.AverageAndPeak).2 frames).AverageAndPeak =
        (RmsLevel.analyzeAll RmsLevel.create frames).AverageAndPeak := by
  intro st frames
  exact ⟨rfl, rfl, rfl⟩

/-- Processing chunks appends their probability and RMS values, in order, to
the rolling histories. -/
theorem VoiceActivityDetector.processChunks_histories (sample_rate : Nat)
    (chunks : List (List Int)) (v : VoiceActivityDetector) :
    (VoiceActivityDetector.processChunks sample_rate v chunks).probHistory =
      v.probHistory ++ chunks.map chunkProbValue ∧
    (VoiceActivityDetector.processChunks sample_rate v chunks).rmsHistory =
      v.rmsHistory ++ chunks.map chunkRmsValue := by
  induction chunks generalizing v with
  | nil => simp [processChunks]
  | cons c cs ih =>
      obtain ⟨h1, h2⟩ := ih (v.process_chunk c sample_rate)
      constructor
      · rw [processChunks, h1]
        simp [process_chunk]
      · rw [processChunks, h2]
        simp [process_chunk]

/-- C9: after a read of both histories, processing a sequence of chunks and
reading again returns exactly the per-chunk probability and RMS values of
the chunks processed since the previous read, as finite ordered sequences;
the read clears the history, so an immediately repeated read with no
intervening process_chunk yields the empty sequence. -/
theorem VoiceActivityDetector.history_read_clears (v : VoiceActivityDetector)
    (sample_rate : Nat) (chunks : List (List Int)) :
    (VoiceActivityDetector.processChunks sample_rate
        ((v.chunkwise_voice_probabilities).2.chunkwise_rms).2
        chunks).chunkwise_voice_probabilities.1 =
      chunks.map chunkProbValue ∧
    (VoiceActivityDetector.processChunks sample_rate
        ((v.chunkwise_voice_probabilities).2.chunkwise_rms).2
        chunks).chunkwise_rms.1 =
      chunks.map chunkRmsValue ∧
    ((VoiceActivityDetector.processChunks sample_rate
        ((v.chunkwise_voice_probabilities).2.chunkwise_rms).2
        chunks).chunkwise_voice_probabilities.2.chunkwise_voice_probabilities).1
      = [] ∧
    ((VoiceActivityDetector.processChunks sample_rate
        ((v.chunkwise_voice_probabilities).2.chunkwise_rms).2
        chunks).chunkwise_rms.2.chunkwise_rms).1 = [] := by
  obtain ⟨h1, h2⟩ := VoiceActivityDetector.processChunks_histories sample_rate
    chunks ((v.chunkwise_voice_probabilities).2.chunkwise_rms).2
  refine ⟨?_, ?_, rfl, rfl⟩
  · show (VoiceActivityDetector.processChunks sample_rate
        ((v.chunkwise_voice_probabilities).2.chunkwise_rms).2
        chunks).probHistory = chunks.map chunkProbValue
    rw [h1]
    rfl
  · show (VoiceActivityDetector.processChunks sample_rate
        ((v.chunkwise_voice_probabilities).2.chunkwise_rms).2
        chunks).rmsHistory = chunks.map chunkRmsValue
    rw [h2]
    rfl

set_option maxRecDepth 4000 in
/-- C10 witness: mode 3 on a fresh VAD, with a 160-sample (10 ms) zero frame
at 16 kHz. -/
theorem VAD.set_mode_ok_witness :
    (3 : Nat) ≤ 3 ∧ VAD.is_valid_config 16000 160 = true ∧
    ((VAD.create.set_mode 3).1 = true ∧
     ((VAD.create.set_mode 3).2.is_speech (List.replicate 160 0) 16000 = 0 ∨
      (VAD.create.set_mode 3).2.is_speech (List.replicate 160 0) 16000 = 1)) := by
  refine ⟨by decide, by decide, ?_⟩
  have h := VAD.set_mode_ok VAD.create 3 (List.replicate 160 0) 16000
    (by decide) (by decide)
  exact h

end WebRTCAPM
